import Mathlib

/-!
Verification of the text-adventure repository (app/db.py, app/memory.py,
app/story_engine.py, app/llm.py) against its natural-language specification.

The embedding is shallow: one SQLite-backed game is modelled by a `Database`
record holding the game_state row, the events table, the npcs table and the
inventory row for that game.  TEXT columns that may be NULL are modelled by
the empty string where the Python code treats NULL and missing alike; the
inventory items TEXT column physically stores json.dumps(items), and since
json.loads inverts json.dumps on lists of strings the column is modelled by
its decoded value, a list of strings.

The Python string primitives used by the code (split on a separator, strip,
lower, whitespace split, substring containment, len) are implemented below
over the character list of the string, so that every heuristic is fully
executable inside the kernel.  Python strings are sequences of code points,
which is exactly what the character list of a Lean string is; lower-casing
is implemented on the ASCII range, the range exercised by this code.
-/

/- ===== Python string primitives ===== -/

/-- ASCII lower-casing of one character, as Python str.lower acts on the
ASCII range. -/
def lowerChar (c : Char) : Char :=
  if 65 ≤ c.toNat ∧ c.toNat ≤ 90 then Char.ofNat (c.toNat + 32) else c

/-- Python str.lower. -/
def pyLower (s : String) : String :=
  String.mk (s.data.map lowerChar)

/-- Whether the first list is an initial segment of the second. -/
def matchesAt : List Char → List Char → Bool
  | [], _ => true
  | _ :: _, [] => false
  | a :: as, b :: bs => a == b && matchesAt as bs

/-- Worker for Python str.split(sep): scans left to right, cutting at each
leftmost non-overlapping occurrence of sep; acc holds the current chunk
reversed; fuel bounds the scan by the length of the input, which suffices
because every step consumes at least one character when sep is non-empty
(every separator in this development is non-empty). -/
def splitOnFuel (sep : List Char) : Nat → List Char → List Char → List (List Char)
  | _, [], acc => [acc.reverse]
  | 0, s, acc => [acc.reverse ++ s]
  | fuel + 1, c :: rest, acc =>
    if matchesAt sep (c :: rest) then
      acc.reverse :: splitOnFuel sep fuel ((c :: rest).drop sep.length) []
    else
      splitOnFuel sep fuel rest (c :: acc)

/-- Python s.split(sep) for a non-empty separator. -/
def pySplitOn (s sep : String) : List String :=
  (splitOnFuel sep.data s.data.length s.data []).map String.mk

/-- Python substring membership, needle in haystack, for a non-empty
needle (every needle used below is non-empty). -/
def pyContains (haystack needle : String) : Bool :=
  (pySplitOn haystack needle).length > 1

/-- Python str.strip(): whitespace removed from both ends. -/
def pyTrim (s : String) : String :=
  String.mk (((s.data.dropWhile Char.isWhitespace).reverse.dropWhile Char.isWhitespace).reverse)

/-- Worker for Python str.split() with no argument: maximal runs of
non-whitespace characters, in order; acc holds the current run reversed. -/
def wsTokens : List Char → List Char → List (List Char)
  | [], acc => if acc = [] then [] else [acc.reverse]
  | c :: rest, acc =>
    if c.isWhitespace then
      if acc = [] then wsTokens rest [] else acc.reverse :: wsTokens rest []
    else wsTokens rest (c :: acc)

/-- Python s.split() with no argument. -/
def pyWords (s : String) : List String :=
  (wsTokens s.data []).map String.mk

/-- Python len(s): the number of code points. -/
def pyLen (s : String) : Nat :=
  s.data.length

/- ===== db.py: the Database class ===== -/

/-- A row of the game_state table (db.py, CREATE TABLE game_state):
current_round INTEGER DEFAULT 1, current_situation TEXT, story_premise TEXT,
current_summary TEXT.  NULL text columns are modelled as "". -/
structure GameStateRow where
  current_round : Nat
  current_situation : String
  story_premise : String
  current_summary : String
deriving DecidableEq, Repr

/-- A row of the events table (db.py): round INTEGER, description TEXT,
player_action TEXT. -/
structure EventRow where
  round : Nat
  description : String
  player_action : String
deriving DecidableEq, Repr

/-- A row of the npcs table (db.py): name, description, relationship,
first_met_round. -/
structure NpcRow where
  name : String
  description : String
  relationship : String
  first_met_round : Nat
deriving DecidableEq, Repr

/-- The portion of the SQLite database belonging to one game id:
its game_state row (none when the row is absent), its events rows in
insertion order, its npcs rows in insertion order, and its inventory row
(none when the row is absent; the stored JSON text is modelled by the
decoded list of item labels). -/
structure Database where
  game_state : Option GameStateRow
  events : List EventRow
  npcs : List NpcRow
  inventory : Option (List String)
deriving DecidableEq, Repr

/-- The database state right after db.py create_player: a fresh game_state
row (current_round defaults to 1, text columns NULL), an empty inventory
row, no events and no npcs. -/
def initialDatabase : Database :=
  { game_state := some { current_round := 1, current_situation := "",
                         story_premise := "", current_summary := "" },
    events := [],
    npcs := [],
    inventory := some [] }

/-- db.py Database.update_game_state: builds a SET clause for each argument
that is not None and updates the row matching the game id; fields passed as
None are not mentioned in the query and keep their stored value; with no
row matching, the UPDATE changes nothing (likewise when every field is
None, where no query is issued at all). -/
def Database.update_game_state (db : Database) (current_round : Option Nat)
    (current_situation story_premise current_summary : Option String) : Database :=
  { db with game_state := db.game_state.map (fun row =>
      { current_round := current_round.getD row.current_round,
        current_situation := current_situation.getD row.current_situation,
        story_premise := story_premise.getD row.story_premise,
        current_summary := current_summary.getD row.current_summary }) }

/-- db.py Database.get_game_state: the row when present, otherwise the
fallback dict (current_round 1, empty strings). -/
def Database.get_game_state (db : Database) : GameStateRow :=
  db.game_state.getD
    { current_round := 1, current_situation := "", story_premise := "", current_summary := "" }

/-- db.py Database.add_event: INSERT INTO events, appending one row. -/
def Database.add_event (db : Database) (e : EventRow) : Database :=
  { db with events := db.events ++ [e] }

/-- Insertion of an event into a list kept sorted by ascending round;
an event is placed after every stored event whose round is not larger,
matching the stable table-scan order SQLite produces for this table. -/
def insertByRound (e : EventRow) : List EventRow → List EventRow
  | [] => [e]
  | x :: xs => if e.round < x.round then e :: x :: xs else x :: insertByRound e xs

/-- The events rows ordered by round ascending. -/
def sortEventsByRound (l : List EventRow) : List EventRow :=
  l.foldl (fun acc e => insertByRound e acc) []

/-- db.py Database.get_recent_events: SELECT ... ORDER BY round ASC LIMIT ?,
so the stored events sorted by ascending round, truncated to the limit. -/
def Database.get_recent_events (db : Database) (limit : Nat) : List EventRow :=
  (sortEventsByRound db.events).take limit

/-- db.py Database.add_npc: INSERT INTO npcs, appending one row. -/
def Database.add_npc (db : Database) (npc : NpcRow) : Database :=
  { db with npcs := db.npcs ++ [npc] }

/-- db.py Database.get_npcs: SELECT * FROM npcs WHERE game_id = ?. -/
def Database.get_npcs (db : Database) : List NpcRow :=
  db.npcs

/-- db.py Database.update_inventory: UPDATE inventory SET items = ? WHERE
game_id = ?; when no inventory row exists for the game the UPDATE matches
nothing and the database is unchanged. -/
def Database.update_inventory (db : Database) (items : List String) : Database :=
  { db with inventory := db.inventory.map (fun _ => items) }

/-- db.py Database.get_inventory: returns the decoded items of the row when
present, and the empty list when no row matches. -/
def Database.get_inventory (db : Database) : List String :=
  db.inventory.getD []

/- ===== memory.py: the MemoryManager heuristics and formatting ===== -/

/-- The NPC stoplist of memory.py extract_npcs_from_text. -/
def npcStoplist : List String :=
  ["you", "i", "we", "they"]

/-- The attribution verbs memory.py extract_npcs_from_text scans for. -/
def speechVerbs : List String :=
  ["says", "said", "asked", "replied", "shouted", "whispered"]

/-- memory.py extract_npcs_from_text, colon pattern: when the prefix of the
line before any quote contains a colon, the text before the colon, stripped,
is proposed when non-empty, shorter than 20 characters and not in the
stoplist (case-insensitively). -/
def colonCandidates (parts : String) : List String :=
  if pyContains parts ":" then
    let name := pyTrim ((pySplitOn parts ":").headD "")
    if name ≠ "" ∧ pyLen name < 20 ∧ pyLower name ∉ npcStoplist then [name] else []
  else []

/-- memory.py extract_npcs_from_text, verb pattern for one verb: when the
verb occurs in the prefix, the last whitespace-separated word before its
first occurrence is proposed unless it is in the stoplist
(case-insensitively); no length bound is applied on this path. -/
def verbCandidateFor (parts word : String) : List String :=
  if pyContains parts word then
    let name_parts := pyWords (pyTrim ((pySplitOn parts word).headD ""))
    match name_parts.getLast? with
    | some last => if pyLower last ∉ npcStoplist then [last] else []
    | none => []
  else []

/-- memory.py extract_npcs_from_text, verb pattern over all six verbs in
their listed order. -/
def verbCandidates (parts : String) : List String :=
  (speechVerbs.map (verbCandidateFor parts)).flatten

/-- memory.py extract_npcs_from_text, one line of the text: lines without a
quote character are skipped; otherwise the prefix before the first double
or single quote is stripped and scanned with the colon pattern and then the
verb patterns. -/
def lineCandidates (line : String) : List String :=
  if pyContains line "\"" || pyContains line "\x27" then
    let parts := pyTrim ((pySplitOn ((pySplitOn line "\"").headD "") "\x27").headD "")
    colonCandidates parts ++ verbCandidates parts
  else []

/-- memory.py extract_npcs_from_text: the potential_npcs list collected
over the lines of the text (text.split on the newline character). -/
def extractNpcCandidates (text : String) : List String :=
  ((pySplitOn text "\n").map lineCandidates).flatten

/-- One step of the insertion loop of memory.py extract_npcs_from_text:
a candidate whose lowercased name is in existing_names is skipped, any
other candidate is inserted with description "Met during round r",
relationship neutral and first_met_round r.  Crucially, existing_names is
the snapshot computed before the loop started and is not refreshed. -/
def npcStep (existing_names : List String) (current_round : Nat)
    (d : Database) (npc_name : String) : Database :=
  if pyLower npc_name ∉ existing_names then
    d.add_npc { name := npc_name,
                description := "Met during round " ++ toString current_round,
                relationship := "neutral",
                first_met_round := current_round }
  else d

/-- memory.py extract_npcs_from_text: collect candidates, read the existing
NPC names once, lowercased, then run the insertion loop. -/
def extract_npcs_from_text (db : Database) (text : String) (current_round : Nat) : Database :=
  let potential_npcs := extractNpcCandidates text
  let existing_names := db.get_npcs.map (fun npc => pyLower npc.name)
  potential_npcs.foldl (npcStep existing_names current_round) db

/-- The acquisition phrases of memory.py extract_items_from_text. -/
def itemIndicators : List String :=
  ["found a ", "found an ", "picked up a ", "picked up an ",
   "discovered a ", "discovered an ", "obtained a ", "obtained an ",
   "received a ", "received an ", "given a ", "given an "]

/-- memory.py extract_items_from_text, candidate collection: on the
lowercased text, for each indicator present, every fragment following an
occurrence is cut at the first period, comma or newline; fragments that are
non-empty and shorter than 30 characters are proposed, stripped. -/
def itemCandidates (text : String) : List String :=
  let lower_text := pyLower text
  (itemIndicators.map (fun indicator =>
    if pyContains lower_text indicator then
      ((pySplitOn lower_text indicator).drop 1).filterMap (fun part =>
        let item_part :=
          (pySplitOn ((pySplitOn ((pySplitOn part ".").headD "") ",").headD "") "\n").headD ""
        if item_part ≠ "" ∧ pyLen item_part < 30 then some (pyTrim item_part) else none)
    else [])).flatten

/-- One step of the collection loop of memory.py extract_items_from_text:
a stripped candidate is kept when non-empty, not already in the inventory
read at the start of the call, and not already collected in this call. -/
def itemStep (current_inventory : List String) (acc : List String) (item : String) : List String :=
  if item ≠ "" ∧ item ∉ current_inventory ∧ item ∉ acc then acc ++ [item] else acc

/-- memory.py extract_items_from_text: read the inventory, collect the new
items, and when any were found write back inventory ++ new items and return
them; otherwise return the empty list and leave the database alone. -/
def extract_items_from_text (db : Database) (text : String) : List String × Database :=
  let current_inventory := db.get_inventory
  let new_items := (itemCandidates text).foldl (itemStep current_inventory) []
  if new_items ≠ [] then (new_items, db.update_inventory (current_inventory ++ new_items))
  else ([], db)

/-- memory.py format_recent_events: the fixed message on no events,
otherwise a header followed by one block per event, iterating the
round-ascending query result in reverse. -/
def format_recent_events (db : Database) (limit : Nat) : String :=
  let events := db.get_recent_events limit
  if events = [] then "No events recorded yet."
  else
    "\n=== RECENT EVENTS ===\n" ++
      String.join (events.reverse.map (fun event =>
        "\nRound " ++ toString event.round ++ ":\n" ++
          event.description ++ "\n" ++
          "Your action: " ++ event.player_action ++ "\n"))

/- ===== llm.py: the LLMClient retry loop ===== -/

/-- Outcome of one chat-completion API call in llm.py generate_text: the
returned message content, or a raised exception. -/
inductive AttemptResult where
  | ok (content : String)
  | err (msg : String)
deriving DecidableEq, Repr

/-- Whether the attempt raised. -/
def AttemptResult.isErr : AttemptResult → Bool
  | .ok _ => false
  | .err _ => true

/-- The fixed user-facing fallback string of llm.py generate_text. -/
def fallbackMessage : String :=
  "I\x27m having trouble connecting to my storytelling abilities right now. Please try again."

/-- llm.py generate_text: max_retries = 3. -/
def max_retries : Nat := 3

/-- llm.py generate_text: the messages list, a system entry only when the
system prompt is truthy (not None and not empty), then the user prompt. -/
def buildMessages (prompt : String) (system_prompt : Option String) :
    List (String × String) :=
  (match system_prompt with
   | some sp => if sp ≠ "" then [("system", sp)] else []
   | none => []) ++ [("user", prompt)]

/-- The retry loop of llm.py generate_text, for attempt in range(max_retries):
a successful call returns its content; a failed attempt with attempt <
max_retries - 1 sleeps retry_delay and doubles it; the last failed attempt
returns the fallback string.  The oracle gives the outcome of each attempt;
the result carries the returned string, the list of sleeps performed and
the number of attempts made (instrumentation).  Fuel is the number of loop
iterations left, max_retries - attempt at every reachable call, so the
fuel-exhausted branch is unreachable from generate_text. -/
def generateTextLoop (oracle : Nat → AttemptResult) :
    Nat → Nat → Nat → List Nat → String × List Nat × Nat
  | 0, attempt, _retry_delay, sleeps => (fallbackMessage, sleeps, attempt)
  | fuel + 1, attempt, retry_delay, sleeps =>
    match oracle attempt with
    | .ok content => (content, sleeps, attempt + 1)
    | .err _ =>
      if attempt < max_retries - 1 then
        generateTextLoop oracle fuel (attempt + 1) (retry_delay * 2) (sleeps ++ [retry_delay])
      else
        (fallbackMessage, sleeps, attempt + 1)

/-- llm.py LLMClient.generate_text: builds the messages and runs the retry
loop with retry_delay starting at 2; the oracle maps the messages and the
attempt index to that call attempt outcome, standing for the network. -/
def generate_text (oracle : List (String × String) → Nat → AttemptResult)
    (prompt : String) (system_prompt : Option String) : String × List Nat × Nat :=
  generateTextLoop (oracle (buildMessages prompt system_prompt)) max_retries 0 2 []

/- ===== story_engine.py: the StoryEngine ===== -/

/-- A player dict as db.py create_player returns it (name, background,
traits, description). -/
structure Player where
  name : String
  background : String
  traits : String
  description : String
deriving DecidableEq, Repr

/-- An entry of the in-memory story_log list of StoryEngine. -/
structure LogEntry where
  round : Nat
  text : String
  action : String
deriving DecidableEq, Repr

/-- The mutable attributes of a StoryEngine object relevant here: the
database of the current game, the in-memory current_round counter and
story_log, and whether current_game_id and current_player are set. -/
structure EngineState where
  db : Database
  current_round : Nat
  story_log : List LogEntry
  active : Bool
deriving DecidableEq, Repr

/-- The two generation calls process_action makes through LLMClient; each
maps (story_premise, character_description, situation or prior summary,
recent_events, npcs, player_action) to the generated text, standing for the
generation collaborator. -/
structure LlmOracle where
  generate_story_segment :
    String → String → String → List EventRow → List NpcRow → String → String
  summarize_story :
    String → String → String → List EventRow → List NpcRow → String → String

/-- A Python value in an argument list. -/
inductive PyVal where
  | nat (n : Nat)
  | str (s : String)
  | none
deriving DecidableEq, Repr

/-- A Python exception relevant to this development. -/
inductive PyError where
  | typeError (msg : String)
deriving DecidableEq, Repr

/-- The value when bound to an int-typed Optional parameter. -/
def PyVal.toOptNat : PyVal → Option Nat
  | .nat n => some n
  | _ => Option.none

/-- The value when bound to a str-typed Optional parameter. -/
def PyVal.toOptStr : PyVal → Option String
  | .str s => some s
  | _ => Option.none

/-- The message of the arity TypeError CPython raises for the call below. -/
def arityMessage : String :=
  "update_game_state() takes from 2 to 4 positional arguments"

/-- memory.py MemoryManager.update_game_state has the signature
(self, game_id, current_round=None, current_situation=None) and forwards
db.update_game_state(game_id, current_round, current_situation), leaving
story_premise and current_summary as None.  A call is modelled by its
positional argument list after self: CPython binds up to three arguments
to the parameters, fills missing optionals with None, and raises TypeError
when more than three are supplied. -/
def MemoryManager.call_update_game_state (db : Database) (args : List PyVal) :
    Except PyError Database :=
  match args with
  | [] => .error (.typeError "update_game_state() missing 1 required positional argument")
  | [_game_id] =>
    .ok (db.update_game_state Option.none Option.none Option.none Option.none)
  | [_game_id, r] =>
    .ok (db.update_game_state r.toOptNat Option.none Option.none Option.none)
  | [_game_id, r, s] =>
    .ok (db.update_game_state r.toOptNat s.toOptStr Option.none Option.none)
  | _ => .error (.typeError arityMessage)

/-- story_engine.py StoryEngine.process_action: an inactive game returns
the error string; otherwise the in-memory round counter is incremented,
state and context are read, the next segment and the new summary are
generated, and the engine calls memory_manager.update_game_state with FIVE
positional arguments (game_id, round, next_segment, story_premise,
summary, the game id written 0 in this one-game model).  When that call
raises, the exception propagates out of process_action with only the
in-memory counter changed; otherwise the event is appended, the extraction
heuristics run, the story_log grows and the new segment is returned. -/
def process_action (llm : LlmOracle) (character_description : String)
    (st : EngineState) (action : String) : EngineState × Except PyError String :=
  if st.active = false then (st, .ok "Error: No active game.")
  else
    let st := { st with current_round := st.current_round + 1 }
    let game_state := st.db.get_game_state
    let current_situation := game_state.current_situation
    let story_premise := game_state.story_premise
    let current_summary := game_state.current_summary
    let recent_events := st.db.get_recent_events 5
    let npcs := st.db.get_npcs
    let next_segment := llm.generate_story_segment
      story_premise character_description current_situation recent_events npcs action
    let summary := llm.summarize_story
      story_premise character_description current_summary recent_events npcs action
    match MemoryManager.call_update_game_state st.db
        [PyVal.nat 0, PyVal.nat st.current_round, PyVal.str next_segment,
         PyVal.str story_premise, PyVal.str summary] with
    | .error e => (st, .error e)
    | .ok db =>
      let db := db.add_event
        { round := st.current_round, description := next_segment, player_action := action }
      let db := extract_npcs_from_text db next_segment st.current_round
      let db := (extract_items_from_text db next_segment).2
      ({ st with
          db := db,
          story_log := st.story_log ++
            [{ round := st.current_round, text := next_segment, action := action }] },
       .ok next_segment)

/-- story_engine.py end_game: the epilogue prompt, the player name followed
by an apostrophe, an s and a space, and nothing else. -/
def epilogue_prompt (player : Player) : String :=
  player.name ++ "\x27s "

/-- story_engine.py _save_story_log: the file name, the lowercased player
name with spaces replaced by underscores, an underscore, the integer
timestamp and the .txt suffix. -/
def storyLogFilename (player : Player) (timestamp : Nat) : String :=
  String.mk ((pyLower player.name).data.map (fun c => if c = ' ' then '_' else c))
    ++ "_" ++ toString timestamp ++ ".txt"

/-- story_engine.py _save_story_log: the text written for one story_log
entry. -/
def roundEntryText (entry : LogEntry) : String :=
  "--- Round " ++ toString entry.round ++ " ---\n\n" ++ entry.text ++ "\n\n" ++
    "Your action: " ++ entry.action ++ "\n\n"

/-- story_engine.py _save_story_log: the whole file content, the player
metadata header followed by the story_log entries in list order. -/
def adventureLogText (player : Player) (log : List LogEntry) : String :=
  "=== ADVENTURE LOG: " ++ player.name ++ " ===\n\n" ++
    "Background: " ++ player.background ++ "\n" ++
    "Traits: " ++ player.traits ++ "\n\n" ++
    player.description ++ "\n\n" ++
    "=== THE JOURNEY ===\n\n" ++
    String.join (log.map roundEntryText)

/-- story_engine.py _save_story_log: returns the written file as name and
content; with an empty story_log the method returns early and writes
nothing. -/
def save_story_log (player : Player) (story_log : List LogEntry) (timestamp : Nat) :
    Option (String × String) :=
  if story_log = [] then Option.none
  else some (storyLogFilename player timestamp, adventureLogText player story_log)

/-- story_engine.py end_game: with no active game returns the fixed string;
otherwise reads 10 recent events (unused), generates the epilogue from the
minimal prompt with an empty system prompt, saves the story log, and
returns the epilogue together with the file written. -/
def end_game (oracle : List (String × String) → Nat → AttemptResult)
    (st : EngineState) (player : Player) (timestamp : Nat) :
    String × Option (String × String) :=
  if st.active = false then ("No active game to end.", Option.none)
  else
    let _recent_events := st.db.get_recent_events 10
    let epilogue := (generate_text oracle (epilogue_prompt player) (some "")).1
    (epilogue, save_story_log player st.story_log timestamp)

/-- A concrete mid-game database whose premise, situation and summary were
set at round 1, used to instantiate theorems. -/
def premiseDatabase : Database :=
  { game_state := some { current_round := 1, current_situation := "opening",
                         story_premise := "premise", current_summary := "opening" },
    events := [],
    npcs := [],
    inventory := some [] }

/- ===== Theorems ===== -/

/-- C9: Database.update_game_state has partial-update semantics: every
field passed as None keeps its stored value, every field passed non-None is
set to the passed value, and a call with all fields None changes nothing. -/
theorem update_game_state_partial (db : Database) (row : GameStateRow)
    (r : Option Nat) (sit prem summ : Option String)
    (hrow : db.game_state = some row) :
    ∃ row', (db.update_game_state r sit prem summ).game_state = some row'
      ∧ (r = none → row'.current_round = row.current_round)
      ∧ (∀ v, r = some v → row'.current_round = v)
      ∧ (sit = none → row'.current_situation = row.current_situation)
      ∧ (∀ v, sit = some v → row'.current_situation = v)
      ∧ (prem = none → row'.story_premise = row.story_premise)
      ∧ (∀ v, prem = some v → row'.story_premise = v)
      ∧ (summ = none → row'.current_summary = row.current_summary)
      ∧ (∀ v, summ = some v → row'.current_summary = v)
      ∧ (r = none → sit = none → prem = none → summ = none → row' = row) := by
  refine ⟨{ current_round := r.getD row.current_round,
            current_situation := sit.getD row.current_situation,
            story_premise := prem.getD row.story_premise,
            current_summary := summ.getD row.current_summary },
          by simp [Database.update_game_state, hrow],
          ?_, ?_, ?_, ?_, ?_, ?_, ?_, ?_, ?_⟩ <;>
    first
      | (intro h; subst h; rfl)
      | (intro v h; subst h; rfl)
      | (intro h1 h2 h3 h4; subst h1; subst h2; subst h3; subst h4; rfl)

/-- Witness for update_game_state_partial at a concrete row and a call that
sets the round and the summary while leaving the other two fields alone. -/
theorem update_game_state_partial_witness :
    ∃ row', (Database.update_game_state initialDatabase (some 2) none none (some "s")).game_state
        = some row'
      ∧ ((some 2 : Option Nat) = none → row'.current_round = 1)
      ∧ (∀ v, (some 2 : Option Nat) = some v → row'.current_round = v)
      ∧ ((none : Option String) = none → row'.current_situation = "")
      ∧ (∀ v, (none : Option String) = some v → row'.current_situation = v)
      ∧ ((none : Option String) = none → row'.story_premise = "")
      ∧ (∀ v, (none : Option String) = some v → row'.story_premise = v)
      ∧ ((some "s" : Option String) = none → row'.current_summary = "")
      ∧ (∀ v, (some "s" : Option String) = some v → row'.current_summary = v)
      ∧ ((some 2 : Option Nat) = none → (none : Option String) = none →
          (none : Option String) = none → (some "s" : Option String) = none →
          row' = { current_round := 1, current_situation := "",
                   story_premise := "", current_summary := "" }) :=
  update_game_state_partial initialDatabase
    { current_round := 1, current_situation := "", story_premise := "", current_summary := "" }
    (some 2) none none (some "s") rfl

/-- C10: inventory storage round-trips: for a game whose inventory row
exists, update_inventory followed by get_inventory returns exactly the list
that was stored, order and multiplicity included; and get_inventory on a
game with no inventory row returns the empty list rather than failing. -/
theorem inventory_roundtrip (db : Database) (items : List String) :
    (db.inventory.isSome = true →
        (db.update_inventory items).get_inventory = items)
    ∧ (db.inventory = none → db.get_inventory = []) := by
  constructor
  · intro h
    cases hinv : db.inventory with
    | none => rw [hinv] at h; cases h
    | some old => simp [Database.update_inventory, Database.get_inventory, hinv]
  · intro h
    simp [Database.get_inventory, h]

/-- Witness for inventory_roundtrip: a stored two-item list comes back
verbatim on the fresh database, and a database whose inventory row is
absent reads as the empty inventory. -/
theorem inventory_roundtrip_witness :
    (Database.update_inventory initialDatabase ["sword", "sword", "rope"]).get_inventory
        = ["sword", "sword", "rope"]
    ∧ Database.get_inventory { initialDatabase with inventory := none } = [] :=
  ⟨(inventory_roundtrip initialDatabase ["sword", "sword", "rope"]).1 rfl,
   (inventory_roundtrip { initialDatabase with inventory := none } ["sword", "sword", "rope"]).2 rfl⟩

/-- The insertion loop of extract_npcs_from_text only ever appends rows: the
resulting npcs list is the old list followed by some added rows, each added
row carrying a candidate name from the scanned list whose lowercased form is
not among the existing_names snapshot taken before the loop. -/
theorem foldl_npcStep_spec (existing : List String) (r : Nat) :
    ∀ (names : List String) (d : Database),
      ∃ added : List NpcRow,
        (names.foldl (npcStep existing r) d).npcs = d.npcs ++ added
        ∧ ∀ npc ∈ added, pyLower npc.name ∉ existing ∧ npc.name ∈ names := by
  intro names
  induction names with
  | nil => exact fun d => ⟨[], by simp, by simp⟩
  | cons n ns ih =>
    intro d
    obtain ⟨added, h1, h2⟩ := ih (npcStep existing r d n)
    by_cases hc : pyLower n ∉ existing
    · refine ⟨{ name := n, description := "Met during round " ++ toString r,
                relationship := "neutral", first_met_round := r } :: added, ?_, ?_⟩
      · rw [List.foldl_cons, h1]
        simp [npcStep, hc, Database.add_npc]
      · intro npc hnpc
        rw [List.mem_cons] at hnpc
        rcases hnpc with hnpc | hnpc
        · subst hnpc; exact ⟨hc, by simp⟩
        · exact ⟨(h2 npc hnpc).1, List.mem_cons_of_mem _ (h2 npc hnpc).2⟩
    · refine ⟨added, ?_, ?_⟩
      · rw [List.foldl_cons, h1]
        simp [npcStep, hc]
      · intro npc hnpc
        exact ⟨(h2 npc hnpc).1, List.mem_cons_of_mem _ (h2 npc hnpc).2⟩

/-- Every name produced by the colon pattern passed its stoplist check. -/
theorem colonCandidates_not_stoplist (parts : String) :
    ∀ name ∈ colonCandidates parts, pyLower name ∉ npcStoplist := by
  intro name h
  simp only [colonCandidates] at h
  split at h
  · split at h
    · next hcond => rw [List.mem_singleton] at h; subst h; exact hcond.2.2
    · simp at h
  · simp at h

/-- Every name produced by the verb pattern passed its stoplist check. -/
theorem verbCandidateFor_not_stoplist (parts word : String) :
    ∀ name ∈ verbCandidateFor parts word, pyLower name ∉ npcStoplist := by
  intro name h
  simp only [verbCandidateFor] at h
  split at h
  · split at h
    · split at h
      · next hcond => rw [List.mem_singleton] at h; subst h; exact hcond
      · simp at h
    · simp at h
  · simp at h

/-- No candidate proposed by the NPC heuristic is in the stoplist,
case-insensitively. -/
theorem extractNpcCandidates_not_stoplist (text : String) :
    ∀ name ∈ extractNpcCandidates text, pyLower name ∉ npcStoplist := by
  intro name h
  simp only [extractNpcCandidates, List.mem_flatten, List.mem_map] at h
  obtain ⟨l, ⟨line, _, rfl⟩, hn⟩ := h
  simp only [lineCandidates] at hn
  split at hn
  · rw [List.mem_append] at hn
    rcases hn with hn | hn
    · exact colonCandidates_not_stoplist _ name hn
    · simp only [verbCandidates, List.mem_flatten, List.mem_map] at hn
      obtain ⟨l, ⟨word, _, rfl⟩, hn⟩ := hn
      exact verbCandidateFor_not_stoplist _ word name hn
  · simp at hn

/-- C6 counterexample: on a fresh game, a text whose two lines each
attribute dialogue to Bob inserts the NPC Bob twice in a single scan, so
the stored names are not unique, even case-insensitively. -/
theorem extract_npcs_same_scan_duplicate :
    ((extract_npcs_from_text initialDatabase "Bob said \"hi\"\nBob said \"hi\"" 1).npcs.map
        (fun n => n.name)) = ["Bob", "Bob"]
    ∧ ¬ ((extract_npcs_from_text initialDatabase "Bob said \"hi\"\nBob said \"hi\"" 1).npcs.map
        (fun n => pyLower n.name)).Nodup := by
  constructor
  · decide
  · decide

/-- C6 (amended): extract_npcs_from_text skips every candidate whose name
already exists case-insensitively among the NPCs stored before the scan
began; the existing-name snapshot is not refreshed during the scan, so only
pre-existing names are deduplicated and the scan appends rows whose
lowercased names are all new with respect to that snapshot. -/
theorem extract_npcs_skips_preexisting (db : Database) (text : String) (r : Nat) :
    ∃ added : List NpcRow,
      (extract_npcs_from_text db text r).npcs = db.npcs ++ added
      ∧ ∀ npc ∈ added, pyLower npc.name ∉ db.npcs.map (fun n => pyLower n.name) := by
  obtain ⟨added, h1, h2⟩ :=
    foldl_npcStep_spec (db.npcs.map (fun n => pyLower n.name)) r (extractNpcCandidates text) db
  refine ⟨added, ?_, fun npc h => (h2 npc h).1⟩
  simpa [extract_npcs_from_text, Database.get_npcs] using h1

/-- Witness for extract_npcs_skips_preexisting: a game that already knows
Bob, scanned over a text attributing dialogue to Bob again. -/
theorem extract_npcs_skips_preexisting_witness :
    ∃ added : List NpcRow,
      (extract_npcs_from_text
          { initialDatabase with
              npcs := [{ name := "Bob", description := "old", relationship := "neutral",
                         first_met_round := 1 }] }
          "Bob said \"hi\"" 2).npcs
        = [{ name := "Bob", description := "old", relationship := "neutral",
             first_met_round := 1 }] ++ added
      ∧ ∀ npc ∈ added, pyLower npc.name ∉
          ([{ name := "Bob", description := "old", relationship := "neutral",
              first_met_round := 1 }] : List NpcRow).map (fun n => pyLower n.name) :=
  extract_npcs_skips_preexisting
    { initialDatabase with
        npcs := [{ name := "Bob", description := "old", relationship := "neutral",
                   first_met_round := 1 }] }
    "Bob said \"hi\"" 2

/-- C8 counterexample: the verb pattern carries no length bound, so a
30-character speaker name is proposed and inserted. -/
theorem extract_npcs_long_name_inserted :
    ((extract_npcs_from_text initialDatabase
        "Verylongnameofthirtycharacters said \"hi\"" 1).npcs.map (fun n => n.name))
      = ["Verylongnameofthirtycharacters"]
    ∧ 20 ≤ pyLen "Verylongnameofthirtycharacters" := by
  constructor
  · decide
  · decide

/-- C8 (amended): whatever the phrasing of the text, every NPC row present
after a scan either predates the scan or has a name outside the stoplist in
every letter case, so NPCs named You or They (or any casing of you, i, we,
they) are never inserted; the under-20-characters bound, however, is
enforced only on the colon pattern, not on the speech-verb pattern. -/
theorem extract_npcs_never_stoplist (db : Database) (text : String) (r : Nat) :
    ∀ npc ∈ (extract_npcs_from_text db text r).npcs,
      npc ∈ db.npcs ∨
        (npc.name ≠ "You" ∧ npc.name ≠ "They" ∧ pyLower npc.name ∉ npcStoplist) := by
  intro npc hmem
  obtain ⟨added, h1, h2⟩ :=
    foldl_npcStep_spec (db.npcs.map (fun n => pyLower n.name)) r (extractNpcCandidates text) db
  have h1' : (extract_npcs_from_text db text r).npcs = db.npcs ++ added := by
    simpa [extract_npcs_from_text, Database.get_npcs] using h1
  rw [h1', List.mem_append] at hmem
  rcases hmem with hmem | hmem
  · exact Or.inl hmem
  · right
    have hstop : pyLower npc.name ∉ npcStoplist :=
      extractNpcCandidates_not_stoplist text npc.name (h2 npc hmem).2
    refine ⟨?_, ?_, hstop⟩
    · intro hYou; rw [hYou] at hstop; exact hstop (by decide)
    · intro hThey; rw [hThey] at hstop; exact hstop (by decide)

/-- Witness for extract_npcs_never_stoplist: the row inserted for Greta on
a fresh game is not a stoplist name. -/
theorem extract_npcs_never_stoplist_witness :
    ({ name := "Greta", description := "Met during round 1", relationship := "neutral",
       first_met_round := 1 } : NpcRow) ∈ initialDatabase.npcs ∨
      (("Greta" : String) ≠ "You" ∧ ("Greta" : String) ≠ "They"
        ∧ pyLower "Greta" ∉ npcStoplist) :=
  extract_npcs_never_stoplist initialDatabase "Greta said \"ho\"" 1
    { name := "Greta", description := "Met during round 1", relationship := "neutral",
      first_met_round := 1 }
    (by decide)

/-- C4: format_recent_events on a game with no events returns the fixed
message; on three stored events of rounds 1, 2, 3 it returns three rendered
blocks, but in DESCENDING round order (3, 2, 1): the query returns the
events ascending and the loop iterates them reversed, so the most recent
round is printed first, against both the claim and the code comment saying
the most recent is shown last. -/
theorem format_recent_events_rendering :
    format_recent_events initialDatabase 5 = "No events recorded yet."
    ∧ format_recent_events
        (((initialDatabase.add_event
            { round := 1, description := "d1", player_action := "a1" }).add_event
            { round := 2, description := "d2", player_action := "a2" }).add_event
            { round := 3, description := "d3", player_action := "a3" }) 5
      = "\n=== RECENT EVENTS ===\n\nRound 3:\nd3\nYour action: a3\n"
          ++ "\nRound 2:\nd2\nYour action: a2\n\nRound 1:\nd1\nYour action: a1\n" := by
  constructor
  · decide
  · decide

/-- Anything already collected stays collected through the item loop. -/
theorem itemStep_mono (inv : List String) :
    ∀ (cands acc : List String), ∀ a ∈ acc, a ∈ cands.foldl (itemStep inv) acc := by
  intro cands
  induction cands with
  | nil => intro acc a h; simpa using h
  | cons c cs ih =>
    intro acc a h
    rw [List.foldl_cons]
    apply ih
    unfold itemStep
    split
    · exact List.mem_append_left _ h
    · exact h

/-- After the item loop, every non-empty candidate is accounted for: it was
already in the inventory snapshot or it is in the final collected list. -/
theorem itemStep_covers (inv : List String) :
    ∀ (cands acc : List String), ∀ c ∈ cands, c ≠ "" →
      c ∈ inv ∨ c ∈ cands.foldl (itemStep inv) acc := by
  intro cands
  induction cands with
  | nil => intro acc c h; simp at h
  | cons d ds ih =>
    intro acc c hmem hne
    rw [List.mem_cons] at hmem
    rw [List.foldl_cons]
    rcases hmem with rfl | hmem
    · by_cases hinv : c ∈ inv
      · exact Or.inl hinv
      · right
        apply itemStep_mono
        unfold itemStep
        split
        · exact List.mem_append_right _ (List.mem_singleton_self c)
        · next hcond =>
          by_contra hacc
          exact hcond ⟨hne, hinv, hacc⟩
    · exact ih _ c hmem hne

/-- When every candidate is empty or already in the inventory snapshot, the
item loop collects nothing. -/
theorem itemStep_all_covered (inv : List String) :
    ∀ (cands acc : List String), (∀ c ∈ cands, c = "" ∨ c ∈ inv) →
      cands.foldl (itemStep inv) acc = acc := by
  intro cands
  induction cands with
  | nil => intro acc _; rfl
  | cons d ds ih =>
    intro acc h
    rw [List.foldl_cons]
    have hd := h d (List.mem_cons_self d ds)
    have hstep : itemStep inv acc d = acc := by
      unfold itemStep
      split
      · next hcond =>
        rcases hd with hd | hd
        · exact absurd hd hcond.1
        · exact absurd hd hcond.2.1
      · rfl
    rw [hstep]
    exact ih acc (fun c hc => h c (List.mem_cons_of_mem _ hc))

/-- The item loop collects pairwise distinct labels, none of which was in
the inventory snapshot. -/
theorem itemStep_nodup_fresh (inv : List String) :
    ∀ (cands acc : List String), acc.Nodup → (∀ a ∈ acc, a ∉ inv) →
      (cands.foldl (itemStep inv) acc).Nodup
      ∧ ∀ a ∈ cands.foldl (itemStep inv) acc, a ∉ inv := by
  intro cands
  induction cands with
  | nil => intro acc h1 h2; exact ⟨h1, h2⟩
  | cons d ds ih =>
    intro acc h1 h2
    rw [List.foldl_cons]
    apply ih
    · unfold itemStep
      split
      · next hcond =>
        rw [List.nodup_append]
        refine ⟨h1, List.nodup_singleton d, ?_⟩
        intro a ha hd
        rw [List.mem_singleton] at hd
        subst hd
        exact hcond.2.2 ha
      · exact h1
    · unfold itemStep
      split
      · next hcond =>
        intro a ha
        rw [List.mem_append, List.mem_singleton] at ha
        rcases ha with ha | ha
        · exact h2 a ha
        · subst ha; exact hcond.2.1
      · exact h2

/-- extract_items_from_text adds nothing and leaves the database alone when
every candidate of the text is empty or already in the inventory. -/
theorem extract_items_no_new (db2 : Database) (text : String)
    (hcov : ∀ c ∈ itemCandidates text, c = "" ∨ c ∈ db2.get_inventory) :
    extract_items_from_text db2 text = ([], db2) := by
  simp only [extract_items_from_text]
  rw [itemStep_all_covered _ _ _ hcov]
  simp

/-- C7: for a game whose inventory row exists (every game is created with
one), extract_items_from_text is idempotent: a second run on the identical
text returns the empty list and leaves the database exactly as after the
first run; moreover the items added by the first run are pairwise distinct
and disjoint from the inventory read before the run, so no duplicate labels
arise. -/
theorem extract_items_idempotent (db : Database) (text : String)
    (hinv : db.inventory.isSome = true) :
    extract_items_from_text (extract_items_from_text db text).2 text
        = ([], (extract_items_from_text db text).2)
    ∧ ((extract_items_from_text db text).1).Nodup
    ∧ ∀ i ∈ (extract_items_from_text db text).1, i ∉ db.get_inventory := by
  obtain ⟨old, hold⟩ := Option.isSome_iff_exists.mp hinv
  have hfresh := itemStep_nodup_fresh db.get_inventory (itemCandidates text) []
    List.nodup_nil (by simp)
  by_cases h : (itemCandidates text).foldl (itemStep db.get_inventory) [] = []
  · have hrun : extract_items_from_text db text = ([], db) := by
      simp only [extract_items_from_text]
      rw [h]
      simp
    rw [hrun]
    refine ⟨?_, by simp, by simp⟩
    exact extract_items_no_new db text (fun c hc => by
      by_cases hce : c = ""
      · exact Or.inl hce
      · rcases itemStep_covers db.get_inventory (itemCandidates text) [] c hc hce with hc2 | hc2
        · exact Or.inr hc2
        · rw [h] at hc2; simp at hc2)
  · have hrun : extract_items_from_text db text =
        ((itemCandidates text).foldl (itemStep db.get_inventory) [],
          db.update_inventory (db.get_inventory ++
            (itemCandidates text).foldl (itemStep db.get_inventory) [])) := by
      simp only [extract_items_from_text]
      rw [if_pos h]
    have hinv1 : (db.update_inventory (db.get_inventory ++
        (itemCandidates text).foldl (itemStep db.get_inventory) [])).get_inventory
        = db.get_inventory ++ (itemCandidates text).foldl (itemStep db.get_inventory) [] := by
      simp [Database.update_inventory, Database.get_inventory, hold]
    rw [hrun]
    refine ⟨?_, hfresh.1, hfresh.2⟩
    exact extract_items_no_new _ text (fun c hc => by
      by_cases hce : c = ""
      · exact Or.inl hce
      · right
        rw [hinv1, List.mem_append]
        exact itemStep_covers db.get_inventory (itemCandidates text) [] c hc hce)

/-- Witness for extract_items_idempotent: the fresh game scanned twice over
a text that yields the item key. -/
theorem extract_items_idempotent_witness :
    extract_items_from_text (extract_items_from_text initialDatabase "You found a key.").2
        "You found a key."
        = ([], (extract_items_from_text initialDatabase "You found a key.").2)
    ∧ ((extract_items_from_text initialDatabase "You found a key.").1).Nodup
    ∧ ∀ i ∈ (extract_items_from_text initialDatabase "You found a key.").1,
        i ∉ initialDatabase.get_inventory :=
  extract_items_idempotent initialDatabase "You found a key." rfl

/-- C3: for every prompt and system prompt, generate_text makes at most 3
attempts, its sleeps are a prefix of the schedule 2 then 4 (doubling), and
when every attempt fails it returns the fixed fallback string after
sleeping 2 and 4 between the attempts — it returns a string in every case
rather than raising. -/
theorem generate_text_retry_contract
    (oracle : List (String × String) → Nat → AttemptResult)
    (prompt : String) (system_prompt : Option String) :
    (generate_text oracle prompt system_prompt).2.2 ≤ 3
    ∧ ((generate_text oracle prompt system_prompt).2.1 = []
        ∨ (generate_text oracle prompt system_prompt).2.1 = [2]
        ∨ (generate_text oracle prompt system_prompt).2.1 = [2, 4])
    ∧ ((∀ i, (oracle (buildMessages prompt system_prompt) i).isErr = true) →
        (generate_text oracle prompt system_prompt).1 = fallbackMessage
        ∧ (generate_text oracle prompt system_prompt).2.1 = [2, 4]
        ∧ (generate_text oracle prompt system_prompt).2.2 = 3) := by
  set o := oracle (buildMessages prompt system_prompt) with ho
  have expand : generate_text oracle prompt system_prompt = generateTextLoop o 3 0 2 [] := by
    rw [ho]; rfl
  rcases h0 : o 0 with c0 | m0
  · have hr : generateTextLoop o 3 0 2 [] = (c0, [], 1) := by
      simp [generateTextLoop, h0]
    rw [expand, hr]
    refine ⟨by norm_num, Or.inl rfl, ?_⟩
    intro hall
    have h := hall 0
    rw [h0] at h
    simp [AttemptResult.isErr] at h
  · rcases h1 : o 1 with c1 | m1
    · have hr : generateTextLoop o 3 0 2 [] = (c1, [2], 2) := by
        simp [generateTextLoop, h0, h1, max_retries]
      rw [expand, hr]
      refine ⟨by norm_num, Or.inr (Or.inl rfl), ?_⟩
      intro hall
      have h := hall 1
      rw [h1] at h
      simp [AttemptResult.isErr] at h
    · rcases h2 : o 2 with c2 | m2
      · have hr : generateTextLoop o 3 0 2 [] = (c2, [2, 4], 3) := by
          simp [generateTextLoop, h0, h1, h2, max_retries]
        rw [expand, hr]
        refine ⟨by norm_num, Or.inr (Or.inr rfl), ?_⟩
        intro hall
        have h := hall 2
        rw [h2] at h
        simp [AttemptResult.isErr] at h
      · have hr : generateTextLoop o 3 0 2 [] = (fallbackMessage, [2, 4], 3) := by
          simp [generateTextLoop, h0, h1, h2, max_retries]
        rw [expand, hr]
        exact ⟨by norm_num, Or.inr (Or.inr rfl), fun _ => ⟨rfl, rfl, rfl⟩⟩

/-- Witness for generate_text_retry_contract: with the network failing on
every attempt, the call returns the fallback string after sleeping 2 then 4
over exactly 3 attempts. -/
theorem generate_text_retry_contract_witness :
    (generate_text (fun _ _ => AttemptResult.err "boom") "p" none).1 = fallbackMessage
    ∧ (generate_text (fun _ _ => AttemptResult.err "boom") "p" none).2.1 = [2, 4]
    ∧ (generate_text (fun _ _ => AttemptResult.err "boom") "p" none).2.2 = 3 :=
  (generate_text_retry_contract (fun _ _ => AttemptResult.err "boom") "p" none).2.2
    (fun _ => rfl)

/-- C5: for an active game with at least one logged round, end_game builds
its epilogue request from the player name alone (the only message handed to
generation is the user message whose content is the name followed by an
apostrophe-s, with no premise, events, NPCs or summary in the prompt and an
empty, hence dropped, system prompt), and writes the transcript file whose
name combines the lowercased underscore-normalized player name with the
timestamp, and whose content is the player metadata followed by every
story_log round block in list order. -/
theorem end_game_minimal_prompt_and_transcript
    (oracle : List (String × String) → Nat → AttemptResult)
    (st : EngineState) (player : Player) (timestamp : Nat)
    (hact : st.active = true) (hlog : st.story_log ≠ []) :
    buildMessages (epilogue_prompt player) (some "")
        = [("user", player.name ++ "\x27s ")]
    ∧ storyLogFilename player timestamp
        = String.mk ((pyLower player.name).data.map (fun c => if c = ' ' then '_' else c))
            ++ "_" ++ toString timestamp ++ ".txt"
    ∧ (end_game oracle st player timestamp).2
        = some (storyLogFilename player timestamp,
            "=== ADVENTURE LOG: " ++ player.name ++ " ===\n\n" ++
              "Background: " ++ player.background ++ "\n" ++
              "Traits: " ++ player.traits ++ "\n\n" ++
              player.description ++ "\n\n" ++
              "=== THE JOURNEY ===\n\n" ++
              String.join (st.story_log.map roundEntryText)) := by
  refine ⟨rfl, rfl, ?_⟩
  simp [end_game, hact, save_story_log, hlog, adventureLogText]

/-- Witness for end_game_minimal_prompt_and_transcript on a concrete active
game with one logged round. -/
theorem end_game_minimal_prompt_and_transcript_witness :
    buildMessages (epilogue_prompt
        { name := "Ada Lovelace", background := "bg", traits := "curious",
          description := "desc" }) (some "")
        = [("user", ("Ada Lovelace" : String) ++ "\x27s ")]
    ∧ storyLogFilename
        { name := "Ada Lovelace", background := "bg", traits := "curious",
          description := "desc" } 1700000000
        = String.mk ((pyLower "Ada Lovelace").data.map (fun c => if c = ' ' then '_' else c))
            ++ "_" ++ toString 1700000000 ++ ".txt"
    ∧ (end_game (fun _ _ => AttemptResult.ok "The end.")
        { db := initialDatabase, current_round := 1,
          story_log := [{ round := 1, text := "t1", action := "begin the adventure" }],
          active := true }
        { name := "Ada Lovelace", background := "bg", traits := "curious",
          description := "desc" }
        1700000000).2
      = some (storyLogFilename
          { name := "Ada Lovelace", background := "bg", traits := "curious",
            description := "desc" } 1700000000,
          "=== ADVENTURE LOG: " ++ ("Ada Lovelace" : String) ++ " ===\n\n" ++
            "Background: " ++ ("bg" : String) ++ "\n" ++
            "Traits: " ++ ("curious" : String) ++ "\n\n" ++
            ("desc" : String) ++ "\n\n" ++
            "=== THE JOURNEY ===\n\n" ++
            String.join (([{ round := 1, text := "t1", action := "begin the adventure" }] :
              List LogEntry).map roundEntryText)) :=
  end_game_minimal_prompt_and_transcript (fun _ _ => AttemptResult.ok "The end.")
    { db := initialDatabase, current_round := 1,
      story_log := [{ round := 1, text := "t1", action := "begin the adventure" }],
      active := true }
    { name := "Ada Lovelace", background := "bg", traits := "curious", description := "desc" }
    1700000000 rfl (by decide)

/-- C1: on every active game, process_action raises: the engine passes five
positional arguments to MemoryManager.update_game_state, which accepts only
game_id, current_round and current_situation, so CPython raises TypeError;
consequently the stored current_round is NOT advanced and NO Event row is
appended — the round-n-to-n-plus-1 contract never executes. -/
theorem process_action_no_round_no_event (llm : LlmOracle) (character_description : String)
    (st : EngineState) (action : String) (hact : st.active = true) :
    (process_action llm character_description st action).2
        = Except.error (PyError.typeError arityMessage)
    ∧ (process_action llm character_description st action).1.db.events = st.db.events
    ∧ (process_action llm character_description st action).1.db.game_state.map
        GameStateRow.current_round
        = st.db.game_state.map GameStateRow.current_round := by
  have hcall : ∀ (db : Database) (a b c d e : PyVal),
      MemoryManager.call_update_game_state db [a, b, c, d, e]
        = Except.error (PyError.typeError arityMessage) := fun _ _ _ _ _ _ => rfl
  simp [process_action, hact, hcall]

/-- Witness for process_action_no_round_no_event on a concrete mid-game
state at round 1 and the action "look around". -/
theorem process_action_no_round_no_event_witness :
    (process_action
        { generate_story_segment := fun _ _ _ _ _ _ => "seg",
          summarize_story := fun _ _ _ _ _ _ => "sum" } "desc"
        { db := initialDatabase, current_round := 1, story_log := [], active := true }
        "look around").2
      = Except.error (PyError.typeError arityMessage)
    ∧ (process_action
        { generate_story_segment := fun _ _ _ _ _ _ => "seg",
          summarize_story := fun _ _ _ _ _ _ => "sum" } "desc"
        { db := initialDatabase, current_round := 1, story_log := [], active := true }
        "look around").1.db.events = initialDatabase.events
    ∧ (process_action
        { generate_story_segment := fun _ _ _ _ _ _ => "seg",
          summarize_story := fun _ _ _ _ _ _ => "sum" } "desc"
        { db := initialDatabase, current_round := 1, story_log := [], active := true }
        "look around").1.db.game_state.map GameStateRow.current_round
      = initialDatabase.game_state.map GameStateRow.current_round :=
  process_action_no_round_no_event
    { generate_story_segment := fun _ _ _ _ _ _ => "seg",
      summarize_story := fun _ _ _ _ _ _ => "sum" } "desc"
    { db := initialDatabase, current_round := 1, story_log := [], active := true }
    "look around" rfl

/-- C2: process_action never persists anything: the five-argument call to
MemoryManager.update_game_state raises TypeError (and even with matching
arity that wrapper forwards only game_id, current_round and
current_situation, dropping premise and summary), so the stored
story_premise and current_summary are left exactly as they were and no new
summary is ever written. -/
theorem process_action_no_premise_summary_persisted (llm : LlmOracle)
    (character_description : String) (st : EngineState) (action : String)
    (hact : st.active = true) :
    (process_action llm character_description st action).2
        = Except.error (PyError.typeError arityMessage)
    ∧ (process_action llm character_description st action).1.db.game_state.map
        GameStateRow.story_premise
        = st.db.game_state.map GameStateRow.story_premise
    ∧ (process_action llm character_description st action).1.db.game_state.map
        GameStateRow.current_summary
        = st.db.game_state.map GameStateRow.current_summary := by
  have hcall : ∀ (db : Database) (a b c d e : PyVal),
      MemoryManager.call_update_game_state db [a, b, c, d, e]
        = Except.error (PyError.typeError arityMessage) := fun _ _ _ _ _ _ => rfl
  simp [process_action, hact, hcall]

/-- Witness for process_action_no_premise_summary_persisted on a game whose
premise was set at round 1. -/
theorem process_action_no_premise_summary_persisted_witness :
    (process_action
        { generate_story_segment := fun _ _ _ _ _ _ => "seg",
          summarize_story := fun _ _ _ _ _ _ => "sum" } "desc"
        { db := premiseDatabase, current_round := 1, story_log := [], active := true }
        "explore the ruins").2
      = Except.error (PyError.typeError arityMessage)
    ∧ (process_action
        { generate_story_segment := fun _ _ _ _ _ _ => "seg",
          summarize_story := fun _ _ _ _ _ _ => "sum" } "desc"
        { db := premiseDatabase, current_round := 1, story_log := [], active := true }
        "explore the ruins").1.db.game_state.map GameStateRow.story_premise
      = premiseDatabase.game_state.map GameStateRow.story_premise
    ∧ (process_action
        { generate_story_segment := fun _ _ _ _ _ _ => "seg",
          summarize_story := fun _ _ _ _ _ _ => "sum" } "desc"
        { db := premiseDatabase, current_round := 1, story_log := [], active := true }
        "explore the ruins").1.db.game_state.map GameStateRow.current_summary
      = premiseDatabase.game_state.map GameStateRow.current_summary :=
  process_action_no_premise_summary_persisted
    { generate_story_segment := fun _ _ _ _ _ _ => "seg",
      summarize_story := fun _ _ _ _ _ _ => "sum" } "desc"
    { db := premiseDatabase, current_round := 1, story_log := [], active := true }
    "explore the ruins" rfl
